import Mathlib

/-!
Shallow embedding of the Aegis-Hire frontend (TypeScript/React) for
verification of its UI-state handlers.

The embedded code comes from three source files:
* the interview-copilot page in demo mode (`HARDCODED_NUDGES`,
  `SIMULATED_TRANSCRIPT`, `LiveInterviewModerator` with its
  `handleStartSession` / `startRecording` / `stopRecording` /
  `handleNudge` handlers, driven by `setInterval` / `setTimeout` timers);
* the main page `page.tsx` (`buildErrorMessage`,
  `handleResumeSelection`, `parseResumeFile`, `handleRemoveResume`,
  `handleSendEmail`, `handleGenerateDescription`);
* the `PreInterviewBriefing` upload handler (`handleFileUpload`).

React `useState` component state is modelled as explicit record state;
each event handler becomes a pure function from state (plus its inputs
and, for handlers that perform `fetch`, an oracle describing the server
response) to the state after the handler has run, paired with the list
of network requests the handler issued.  JavaScript timers are modelled
by an explicit event queue ordered by firing time; firing order of
same-deadline timers follows registration order, which the stable
insertion sort below preserves.
-/

namespace AegisHire

/-- One entry of the `HARDCODED_NUDGES` array: a millisecond offset and
the nudge message scheduled at that offset. -/
structure Nudge where
  time : Nat
  message : String
deriving Repr, DecidableEq

/-- The `HARDCODED_NUDGES` constant of the demo interview-copilot page,
transcribed verbatim. -/
def HARDCODED_NUDGES : List Nudge := [
  ⟨5000,
    "BIAS INTERRUPTER: Asking about personal family status is inappropriate and potentially illegal. Focus on job-related qualifications instead."⟩,
  ⟨6000,
    "TALK RATIO MONITOR: You've been speaking for too long. Allow the candidate more time to respond and showcase their skills."⟩,
  ⟨13000,
    "BIAS INTERRUPTER: Comments about hiring 'younger guys' constitute age and gender discrimination. This could expose the company to legal liability."⟩,
  ⟨17000,
    "BIAS INTERRUPTER: Questions about marital status, pregnancy, and living arrangements are prohibited by employment law. Redirect to job-relevant topics."⟩,
  ⟨21000,
    "BIAS INTERRUPTER: Making assumptions about client preferences based on gender is discriminatory. Focus on the candidate's technical abilities."⟩,
  ⟨25000,
    "TOPIC TRACKER: You haven't discussed Kubernetes yet, which is a key requirement in the job description. Consider asking about container orchestration experience."⟩,
  ⟨29000,
    "TALK RATIO MONITOR: The candidate is giving brief responses because you're dominating the conversation. Ask open-ended technical questions."⟩,
  ⟨33000,
    "TOPIC TRACKER: Still no discussion of Kubernetes, Docker orchestration, or cloud architecture best practices. These are critical job requirements."⟩,
  ⟨37000,
    "BIAS INTERRUPTER: Questioning someone's seniority level in a condescending manner creates a hostile interview environment."⟩]

/-- The `SIMULATED_TRANSCRIPT` constant of the demo interview-copilot
page, transcribed verbatim (nine chunks). -/
def SIMULATED_TRANSCRIPT : List String := [
  "Okay, let's get started. I'm running a bit late today, had a rough night with the kids, you know how it is. Anyway, looking at your resume here... Sarah, right? That's a nice name. So you're applying for our Senior Software Engineer position. I'll be honest, we usually hire younger guys for this role since it's pretty demanding and requires a lot of energy. The startup life isn't for everyone, especially if you have family obligations or other distractions at home. We work long hours here, sometimes until midnight, and we need people who can keep up. I mean, look at me, I'm the CTO and I'm still coding at 2 AM most nights. That's just the culture here. So tell me, are you single? Married? Any kids? Because that really affects whether someone can commit to our fast-paced environment.",
  "I appreciate you sharing about the company culture. I'm very committed to my career and have successfully managed demanding projects throughout my six years of experience. I'd prefer to focus our discussion on the technical aspects of the role and how my skills align with your needs.",
  "Right, right, but I need to know what I'm dealing with here. Look, I've hired women before and they always end up leaving when they get pregnant or their husband gets transferred or whatever. It's just business reality. How old are you anyway? You look pretty young, but sometimes it's hard to tell with women, you know? And what about your living situation? Do you live alone or with roommates? Because we sometimes have last-minute travel requirements and I need to know you can just drop everything and go.",
  "I'm fully committed to my professional responsibilities and have always met my work obligations. Could we discuss the technical stack you're using? I have extensive experience with Python, Django, and AWS services that seems relevant to this position.",
  "Yeah, yeah, we'll get to the tech stuff. But first, let me tell you what we're really looking for. We need someone who fits our team culture. We're all young professionals here, mostly guys, and we like to hang out after work, grab beers, maybe hit up some clubs on weekends. It's important that our engineers can bond with the team, you know? Also, just between you and me, some of our clients are pretty old-fashioned and they prefer working with male engineers. It's not my fault, that's just how business works. So can you handle working in that kind of environment?",
  "I'm confident in my ability to work effectively with diverse teams and clients. My technical skills and professional experience speak for themselves. I've successfully collaborated with teams of all sizes and backgrounds throughout my career.",
  "Okay, fine, let's talk tech then. We use Python, obviously, Django for the web stuff, PostgreSQL for the database, and we deploy everything on AWS. Pretty standard stuff. We also use Git, I assume you know that. Docker containers, microservices architecture, the usual buzzwords. Oh, and we do agile development with two-week sprints. Nothing too complicated. I mean, if you can't handle this level of complexity, you probably shouldn't be applying for senior positions anyway. So what do you think? Can you handle working with real enterprise-level code, or are you more of a junior developer pretending to be senior?",
  "I have extensive experience with all those technologies. I've built and maintained microservices architectures using Python and Django, managed PostgreSQL databases with complex schemas, and have deep experience with AWS services including EC2, RDS, S3, and Lambda. I've also worked with containerization using Docker and have experience with CI/CD pipelines.",
  "Well, that sounds okay I guess. Look, I'll be honest with you Sarah, you seem nice enough, but I'm not sure you're tough enough for our startup environment. This isn't some cushy corporate job where you can coast. We need warriors here, people who eat code for breakfast and don't complain when things get difficult. But hey, HR makes me interview everyone, so here we are. Any questions for me? And please don't ask about work-life balance or vacation days or any of that stuff. We're building something important here."]

/-- `const SIMULATION_INTERVAL = 4000`. -/
def SIMULATION_INTERVAL : Nat := 4000

/-- State of the `LiveInterviewModerator` component in demo mode.
`pendingNudges` holds the indices of the `setTimeout` nudge timers that
are scheduled and not cancelled (`nudgeTimers.current`);
`intervalActive` says whether the `setInterval` simulation timer is live
(`simulationTimer.current !== null`); `wsOpen` models
`ws.current?.readyState === WebSocket.OPEN`; `sent` is the trace of
strings passed to `ws.current.send`.  The `jobDescription` text field is
an argument to `handleStartSession` rather than a state field because no
transition reads it after the guard. -/
structure ModState where
  showModal : Bool
  isInterviewing : Bool
  isRecording : Bool
  transcript : String
  nudges : List String
  error : Option String
  wsOpen : Bool
  transcriptIndex : Nat
  intervalActive : Bool
  pendingNudges : List Nat
  sent : List String
deriving Repr, DecidableEq

/-- Component state before any interaction. -/
def initialModState : ModState :=
  { showModal := false, isInterviewing := false, isRecording := false,
    transcript := "", nudges := [], error := none, wsOpen := false,
    transcriptIndex := 0, intervalActive := false, pendingNudges := [],
    sent := [] }

/-- JavaScript `String.prototype.trim`: drop whitespace from both ends.
(Defined structurally over the character list so that it reduces in the
kernel; Lean's own `String.trim` is byte-position based.) -/
def jsTrim (s : String) : String :=
  ⟨((s.data.dropWhile Char.isWhitespace).reverse.dropWhile
      Char.isWhitespace).reverse⟩

/-- URL built by `new WebSocket(...)` in `handleStartSession`. -/
def wsUrlFor (sessionId : String) : String :=
  "ws://127.0.0.1:8000/ws/interview/" ++ sessionId

/-- `handleStartSession`: guard on a blank job description (alert and
return), otherwise open the modal, reset transcript/nudges/error and the
transcript index, and open one WebSocket whose session id is
`"session_demo_" ++ randSuffix` (`randSuffix` stands for the
`Math.random().toString(36).substr(2, 9)` suffix).  The second component
is the list of WebSocket URLs opened by the call. -/
def handleStartSession (s : ModState) (jobDescription randSuffix : String) :
    ModState × List String :=
  if jsTrim jobDescription = "" then (s, [])
  else
    ({ s with showModal := true, isInterviewing := true, transcript := "",
              nudges := [], error := none, transcriptIndex := 0,
              wsOpen := true },
     [wsUrlFor ("session_demo_" ++ randSuffix)])

/-- `stopRecording`: clear the simulation interval, cancel every nudge
timer, and drop the recording flag. -/
def stopRecording (s : ModState) : ModState :=
  { s with intervalActive := false, pendingNudges := [],
           isRecording := false }

/-- One tick of the `setInterval` callback installed by `startRecording`:
either append the end-of-simulation marker and stop, or append the next
chunk, send the full new transcript when the socket is open, and advance
the index. -/
def simTick (s : ModState) : ModState :=
  if SIMULATED_TRANSCRIPT.length ≤ s.transcriptIndex then
    stopRecording
      { s with transcript := s.transcript ++ "\n\n--- End of Simulation ---" }
  else
    match SIMULATED_TRANSCRIPT.get? s.transcriptIndex with
    | none => s
    | some chunk =>
      let newTranscript := s.transcript ++ chunk ++ "\n\n"
      { s with transcript := newTranscript,
               sent := if s.wsOpen then s.sent ++ [newTranscript] else s.sent,
               transcriptIndex := s.transcriptIndex + 1 }

/-- `startRecording` (demo mode): no-op while already recording;
otherwise set the initial transcript marker, clear the nudges, schedule
all nine hardcoded nudge timeouts, and start the simulation interval. -/
def startRecording (s : ModState) : ModState :=
  if s.isRecording then s
  else
    { s with isRecording := true, error := none,
             transcript := "Simulation started... \n\n",
             nudges := [],
             pendingNudges := List.range HARDCODED_NUDGES.length,
             intervalActive := true }

/-- `handleEndSession`: stop recording, close the modal and the socket. -/
def handleEndSession (s : ModState) : ModState :=
  { stopRecording s with isInterviewing := false, showModal := false,
                         wsOpen := false }

/-- The `useEffect` unmount cleanup: `stopRecording()` then close the
WebSocket. -/
def unmountCleanup (s : ModState) : ModState :=
  { stopRecording s with wsOpen := false }

/-- A timer event: the firing of the i-th hardcoded nudge `setTimeout`,
or one tick of the simulation `setInterval`. -/
inductive DemoEvent where
  | nudgeFire (i : Nat)
  | tick
deriving Repr, DecidableEq

/-- Deliver one timer event.  A nudge timeout fires only if it is still
scheduled (not cancelled by `clearTimeout`), and fires once; an interval
tick fires only while the interval has not been cleared. -/
def step (s : ModState) (e : Nat × DemoEvent) : ModState :=
  match e.2 with
  | .nudgeFire i =>
    if s.pendingNudges.contains i then
      match HARDCODED_NUDGES.get? i with
      | some n =>
        { s with nudges := s.nudges ++ [n.message],
                 pendingNudges := s.pendingNudges.erase i }
      | none => { s with pendingNudges := s.pendingNudges.erase i }
    else s
  | .tick => if s.intervalActive then simTick s else s

/-- Stable insertion (by firing time) used to order the timer queue. -/
def insertByTime (x : Nat × DemoEvent) :
    List (Nat × DemoEvent) → List (Nat × DemoEvent)
  | [] => [x]
  | y :: ys => if x.1 ≤ y.1 then x :: y :: ys else y :: insertByTime x ys

/-- Stable sort by firing time: timers with equal deadlines keep their
registration order, matching the JavaScript timer queue. -/
def sortByTime (l : List (Nat × DemoEvent)) : List (Nat × DemoEvent) :=
  l.foldr insertByTime []

/-- The nudge timeouts registered by `startRecording`, with their
deadlines taken from `HARDCODED_NUDGES`. -/
def nudgeEvents : List (Nat × DemoEvent) :=
  HARDCODED_NUDGES.enum.map (fun p => (p.2.time, DemoEvent.nudgeFire p.1))

/-- The first `n` ticks of the simulation interval, at deadlines
`SIMULATION_INTERVAL * (k+1)`. -/
def tickEvents (n : Nat) : List (Nat × DemoEvent) :=
  (List.range n).map (fun k => (SIMULATION_INTERVAL * (k + 1), DemoEvent.tick))

/-- The timer queue of a recording session, in firing order: the nine
nudge timeouts merged with the first `n` interval ticks.  (The nudge
timers are registered before the interval, so they come first in the
pre-sort list.) -/
def demoSchedule (n : Nat) : List (Nat × DemoEvent) :=
  sortByTime (nudgeEvents ++ tickEvents n)

/-- A full demo recording session: `handleStartSession` on a fresh
component, then `startRecording`, then delivery of the session's timer
queue (ten interval ticks suffice: the tenth tick clears the interval)
followed by any further timer events `extra`.  Returns the final
component state and the list of WebSocket URLs opened. -/
def runSession (jobDescription randSuffix : String)
    (extra : List (Nat × DemoEvent)) : ModState × List String :=
  let p := handleStartSession initialModState jobDescription randSuffix
  ((demoSchedule 10 ++ extra).foldl step (startRecording p.1), p.2)

/-- The transcript accumulated after the first `k` chunks: the
`"Simulation started... \n\n"` marker followed by each consumed chunk
with `"\n\n"` appended. -/
def simPrefix : Nat → String
  | 0 => "Simulation started... \n\n"
  | k + 1 =>
    match SIMULATED_TRANSCRIPT.get? k with
    | some c => simPrefix k ++ c ++ "\n\n"
    | none => simPrefix k

/-- The component state right after `startRecording` in a fresh session. -/
def sessionStartState : ModState :=
  { showModal := true, isInterviewing := true, isRecording := true,
    transcript := "Simulation started... \n\n", nudges := [], error := none,
    wsOpen := true, transcriptIndex := 0, intervalActive := true,
    pendingNudges := List.range HARDCODED_NUDGES.length, sent := [] }

/-- The component state after the session's timer queue has been fully
delivered: all nine nudges shown, all nine chunks consumed, the
end-of-simulation marker appended, and both timers cleared. -/
def sessionFinalState : ModState :=
  { showModal := true, isInterviewing := true, isRecording := false,
    transcript := simPrefix SIMULATED_TRANSCRIPT.length ++
      "\n\n--- End of Simulation ---",
    nudges := HARDCODED_NUDGES.map (fun n => n.message),
    error := none, wsOpen := true,
    transcriptIndex := SIMULATED_TRANSCRIPT.length,
    intervalActive := false, pendingNudges := [],
    sent := (List.range SIMULATED_TRANSCRIPT.length).map
      (fun k => simPrefix (k + 1)) }

/-- A moderator state with no live timers: the simulation interval is
cleared and no nudge timeout is scheduled. -/
def quiescent (s : ModState) : Prop :=
  s.pendingNudges = [] ∧ s.intervalActive = false

/-! ## JavaScript string primitives

Structural (kernel-computable) models of the JavaScript string methods
the handlers use.  Lean's own byte-position-based `String` functions are
avoided because they do not reduce in the kernel. -/

/-- `String.prototype.toLowerCase` (ASCII range, as used here). -/
def lowerStr (s : String) : String := ⟨s.data.map Char.toLower⟩

/-- `String.prototype.toUpperCase` (ASCII range, as used here). -/
def upperStr (s : String) : String := ⟨s.data.map Char.toUpper⟩

/-- `name.toLowerCase().endsWith(".pdf")`. -/
def endsWithPdf (name : String) : Bool :=
  List.isSuffixOf ".pdf".data (lowerStr name).data

/-- Whether `pat` is a prefix of `l` (character-wise). -/
def charsStartWith : List Char → List Char → Bool
  | [], _ => true
  | _ :: _, [] => false
  | p :: ps, c :: cs => p == c && charsStartWith ps cs

/-- Whether `pat` occurs contiguously somewhere in `l`. -/
def charsContain (pat : List Char) : List Char → Bool
  | [] => pat.isEmpty
  | c :: rest => charsStartWith pat (c :: rest) || charsContain pat rest

/-- Case-insensitive substring test, modelling `/pat/i.test(s)` for a
literal pattern. -/
def containsCI (s pat : String) : Bool :=
  charsContain (lowerStr pat).data (lowerStr s).data

/-- `String.prototype.replace(/_/g, " ")`. -/
def replaceUnderscores (s : String) : String :=
  ⟨s.data.map (fun c => if c = '_' then ' ' else c)⟩

/-! ## Error construction (`buildErrorMessage`, `page.tsx`) -/

/-- A JavaScript `Error` value: its `name` and `message`. -/
structure JsError where
  name : String
  message : String
deriving Repr, DecidableEq

/-- The backend-unreachable message `buildErrorMessage` substitutes when
the error looks like a failed `fetch`. -/
def backendHint (pre : String) : String :=
  pre ++ ": Unable to reach the backend service. Ensure the FastAPI server is running at http://127.0.0.1:8000 (for example, run `uvicorn main:app --reload` from the backend folder)."

/-- `buildErrorMessage(error, prefix)` from `page.tsx`.  `none` models a
thrown value that is not an `instanceof Error`. -/
def buildErrorMessage : Option JsError → String → String
  | some e, pre =>
    if containsCI e.message "failed to fetch" || e.name == "TypeError" then
      backendHint pre
    else pre ++ ": " ++ e.message
  | none, pre => pre ++ ": Unknown error"

/-! ## Candidate screening (`page.tsx`) -/

/-- The `ParsedResume` record returned by `/api/parse-resume`. -/
structure ParsedResume where
  raw_text : String
  candidate_name : Option String
deriving Repr, DecidableEq

/-- One entry of `screening_results`. -/
structure ScreeningResult where
  candidate : String
  rank : Nat
  justification : List String
  summary : String
deriving Repr, DecidableEq

/-- The screening-tab state of the `Home` component: the selected resume
files (by name), the cache of parsed resumes keyed by file name (a
JavaScript object, modelled as a partial map), the screening results,
and the error banner. -/
structure ScreenState where
  resumeFiles : List String
  parsedResumes : String → Option ParsedResume
  screeningResults : List ScreeningResult
  error : String

/-- The duplicate-files error text
`` `Duplicate files detected: ${names.join(", ")}. These files were not added again.` ``. -/
def dupMessage (names : List String) : String :=
  "Duplicate files detected: " ++ String.intercalate ", " names ++
    ". These files were not added again."

/-- `handleResumeSelection` from `page.tsx`: reject the whole selection
if any chosen file is not a `.pdf`; otherwise append only the files
whose names are not already in `resumeFiles`, and reset the screening
results.  React batches the `setError` calls inside the handler, so the
modelled `error` field is the value of the last `setError` call — in
particular, when the selection mixes duplicates with new names, the
duplicate message is immediately overwritten by `setError("")`. -/
def handleResumeSelection (s : ScreenState) (newFiles : List String) :
    ScreenState :=
  if newFiles.any (fun f => !(endsWithPdf f)) then
    { s with error := "Only PDF files are supported." }
  else
    let duplicateFiles := newFiles.filter
      (fun nf => s.resumeFiles.any (fun ef => ef == nf))
    if duplicateFiles.length > 0 then
      let uniqueNewFiles := newFiles.filter
        (fun nf => !(s.resumeFiles.any (fun ef => ef == nf)))
      if uniqueNewFiles.length = 0 then
        { s with error := dupMessage duplicateFiles }
      else
        { s with error := "",
                 resumeFiles := s.resumeFiles ++ uniqueNewFiles,
                 screeningResults := [] }
    else
      { s with error := "",
               resumeFiles := s.resumeFiles ++ newFiles,
               screeningResults := [] }

/-- Server response oracle for `parseResumeFile`'s `fetch`. -/
inductive ParseResp where
  | ok (parsed : ParsedResume)
  | okError (msg : String)
  | httpError (status : Nat)
  | networkFailure
deriving Repr, DecidableEq

/-- `parseResumeFile` from `page.tsx`: throw before any request when the
file name is not a `.pdf`; otherwise issue one POST to
`/api/parse-resume` and translate the response.  The first component is
the list of requests issued; the `Except` error carries the thrown
JavaScript `Error`. -/
def parseResumeFile (fileName : String) (resp : ParseResp) :
    List String × Except JsError ParsedResume :=
  if !(endsWithPdf fileName) then
    ([], .error ⟨"Error", "Only PDF files are supported."⟩)
  else
    (["http://127.0.0.1:8000/api/parse-resume"],
     match resp with
     | .ok p => .ok p
     | .okError m => .error ⟨"Error", m⟩
     | .httpError st => .error ⟨"Error", "HTTP error! status: " ++ toString st⟩
     | .networkFailure => .error ⟨"TypeError", "Failed to fetch"⟩)

/-- `handleRemoveResume` from `page.tsx`: filter the file out of
`resumeFiles`, `delete` its key from `parsedResumes`, and clear the
screening results. -/
def handleRemoveResume (s : ScreenState) (fileName : String) : ScreenState :=
  { s with resumeFiles := s.resumeFiles.filter (fun f => !(f == fileName)),
           parsedResumes := fun k =>
             if k = fileName then none else s.parsedResumes k,
           screeningResults := [] }

/-! ## Job-description generation (`page.tsx`) -/

/-- State touched by `handleGenerateDescription`. -/
structure JobState where
  jobPrompt : String
  jobDescription : String
  jobLoading : Bool
  error : String
deriving Repr, DecidableEq

/-- Server response oracle for `/api/generate-job-description`:
`ok` is a 2xx response whose body has no truthy `error` field, `okError`
a 2xx response with a truthy `error` field, `httpError` a non-2xx
status, and `networkFailure` a rejected `fetch`. -/
inductive JobDescResp where
  | ok (jd : String)
  | okError (msg : String)
  | httpError (status : Nat)
  | networkFailure
deriving Repr, DecidableEq

/-- The URL POSTed by `handleGenerateDescription`. -/
def jobDescUrl : String := "http://127.0.0.1:8000/api/generate-job-description"

/-- `handleGenerateDescription` from `page.tsx`.  Returns the state
after the handler (the `finally` clause has cleared `jobLoading`) and
the list of requests issued. -/
def handleGenerateDescription (s : JobState) (resp : JobDescResp) :
    JobState × List String :=
  if s.jobPrompt = "" then
    ({ s with error := "Please enter a prompt for the job description." }, [])
  else
    let s1 := { s with jobLoading := false, error := "", jobDescription := "" }
    match resp with
    | .ok jd => ({ s1 with jobDescription := jd }, [jobDescUrl])
    | .okError m =>
      ({ s1 with error := buildErrorMessage (some ⟨"Error", m⟩) "Failed to generate job description" }, [jobDescUrl])
    | .httpError st =>
      ({ s1 with error := buildErrorMessage (some ⟨"Error", "HTTP error! status: " ++ toString st⟩) "Failed to generate job description" }, [jobDescUrl])
    | .networkFailure =>
      ({ s1 with error := buildErrorMessage (some ⟨"TypeError", "Failed to fetch"⟩) "Failed to generate job description" }, [jobDescUrl])

/-! ## Resume upload (`PreInterviewBriefing`, interview-copilot page) -/

/-- State touched by `handleFileUpload`. -/
structure BriefState where
  candidateName : String
  candidateResume : String
  isUploading : Bool
  error : String
deriving Repr, DecidableEq

/-- Server response oracle for `/api/upload-resume`: a 2xx body's
`candidate_name` / `raw_text` fields, a non-2xx body's `detail` field
(`none` models an absent field), or a rejected `fetch`. -/
inductive UploadResp where
  | ok (candidate_name raw_text : Option String)
  | notOk (detail : Option String)
  | networkFailure
deriving Repr, DecidableEq

/-- `data.detail || "Failed to upload resume"`: the `detail` field with
the fallback applied to an absent or falsy (empty) value. -/
def detailOr (d : Option String) (fallback : String) : String :=
  match d with
  | some t => if t = "" then fallback else t
  | none => fallback

/-- `handleFileUpload` from the interview-copilot page: no-op when no
file was selected; otherwise issue one POST to `/api/upload-resume`.
On a non-2xx response the body's `detail` is shown verbatim (with a
fixed fallback when absent); on a rejected `fetch` a fixed hint is
shown. -/
def handleFileUpload (s : BriefState) (file : Option String)
    (resp : UploadResp) : BriefState × List String :=
  match file with
  | none => (s, [])
  | some _ =>
    let s1 := { s with isUploading := false, error := "" }
    let s2 := match resp with
      | .ok cn rt =>
        { s1 with candidateName := cn.getD "",
                  candidateResume := rt.getD "" }
      | .notOk d => { s1 with error := detailOr d "Failed to upload resume" }
      | .networkFailure =>
        { s1 with error :=
            "Failed to upload resume. Make sure the backend server is running." }
    (s2, ["http://127.0.0.1:8000/api/upload-resume"])

/-! ## Email sending (`page.tsx`) -/

/-- State touched by `handleSendEmail`. -/
structure EmailState where
  intervieweeEmail : String
  emailContent : String
  emailSending : Bool
  isEmailModalOpen : Bool
  error : String
  successMessage : String
deriving Repr, DecidableEq

/-- The JSON body POSTed to `/api/send-email`. -/
structure EmailRequest where
  to_email : String
  subject : String
  body : String
deriving Repr, DecidableEq

/-- Server response oracle for `/api/send-email`: success, a 2xx body
with `success: false` and an optional `message`, a non-2xx status with
an optional `detail`, or a rejected `fetch`. -/
inductive SendEmailResp where
  | ok
  | okNotSuccess (message : Option String)
  | httpError (status : Nat) (detail : Option String)
  | networkFailure
deriving Repr, DecidableEq

/-- `handleSendEmail` from `page.tsx`: guard on an empty address
(no request); otherwise POST exactly one email request and translate
the outcome.  The success branch sets the success message and schedules
a 2-second timeout that later closes the modal; the returned state is
the one at the end of the handler itself, with `emailSending` already
cleared by `finally`. -/
def handleSendEmail (s : EmailState) (resp : SendEmailResp) :
    EmailState × List EmailRequest :=
  if s.intervieweeEmail = "" then
    ({ s with error := "Please enter the interviewee's email address." }, [])
  else
    let req : EmailRequest :=
      ⟨s.intervieweeEmail, "Interview Confirmation - Aegis Hire",
       s.emailContent⟩
    let s1 := { s with emailSending := false, error := "",
                       successMessage := "" }
    let s2 := match resp with
      | .ok =>
        { s1 with successMessage := "‚úÖ Email sent successfully to " ++ s.intervieweeEmail ++ "!" }
      | .okNotSuccess m =>
        { s1 with error := buildErrorMessage (some ⟨"Error", detailOr m "Failed to send email"⟩) "Failed to send email" }
      | .httpError st d =>
        { s1 with error := buildErrorMessage (some ⟨"Error", detailOr d ("HTTP error! status: " ++ toString st)⟩) "Failed to send email" }
      | .networkFailure =>
        { s1 with error := buildErrorMessage (some ⟨"TypeError", "Failed to fetch"⟩) "Failed to send email" }
    (s2, [req])

/-! ## Incoming WebSocket events (`handleNudge`) -/

/-- A JavaScript value as produced by `JSON.parse` (plus `undefined`,
the result of reading an absent property). -/
inductive JsValue where
  | str (s : String)
  | num (n : Int)
  | bool (b : Bool)
  | null
  | undefined
  | obj (fields : List (String × JsValue))
  | arr (elems : List JsValue)

/-- Property access `v[k]`: a present object field, otherwise
`undefined`. -/
def getField : JsValue → String → JsValue
  | .obj fields, k => (fields.lookup k).getD .undefined
  | _, _ => .undefined

mutual

/-- JavaScript string coercion `` `${v}` `` of a value. -/
def jsToString : JsValue → String
  | .str s => s
  | .num n => toString n
  | .bool true => "true"
  | .bool false => "false"
  | .null => "null"
  | .undefined => "undefined"
  | .obj _ => "[object Object]"
  | .arr es => jsArrElems es

/-- `Array.prototype.join(",")` as used by string coercion of an array:
`null` and `undefined` elements become empty strings. -/
def jsArrElems : List JsValue → String
  | [] => ""
  | e :: rest =>
    let s := match e with
      | .null => ""
      | .undefined => ""
      | v => jsToString v
    match rest with
    | [] => s
    | _ :: _ => s ++ "," ++ jsArrElems rest

end

/-- `handleNudge` from the interview-copilot pages.  The argument is the
result of `JSON.parse` on the received message (`none` when parsing
threw, caught by the handler).  A parsed value whose `event_type` is not
a string makes `data.event_type.replace` throw a `TypeError`, also
caught, so the nudges are unchanged in that case too. -/
def handleNudge (nudges : List String) (parsed : Option JsValue) :
    List String :=
  match parsed with
  | none => nudges
  | some data =>
    match getField data "event_type" with
    | .str s =>
      if s = "automatic_scribe" then nudges
      else
        nudges ++ [upperStr (replaceUnderscores s) ++ ": " ++
          jsToString (getField data "message")]
    | _ => nudges

/-! ## Theorems -/

/-- `String.join` distributes over list concatenation. -/
theorem str_join_append (l1 l2 : List String) :
    String.join (l1 ++ l2) = String.join l1 ++ String.join l2 := by
  apply String.ext
  simp [String.data_join, String.data_append, List.map_append]

/-- `String.join` of a singleton. -/
theorem str_join_singleton (s : String) : String.join [s] = s := by
  apply String.ext
  simp [String.data_join]

/-- Delivering the session's ten-tick timer queue from the
post-`startRecording` state produces exactly `sessionFinalState`. -/
theorem fold_eval :
    (demoSchedule 10).foldl step sessionStartState = sessionFinalState := rfl

/-- A timer event delivered to a quiescent state (all timers cleared)
changes nothing. -/
theorem step_quiescent (s : ModState) (h : quiescent s)
    (e : Nat × DemoEvent) : step s e = s := by
  obtain ⟨h1, h2⟩ := h
  match e with
  | (t, .nudgeFire i) => simp [step, h1]
  | (t, .tick) => simp [step, h2]

/-- Any sequence of timer events delivered to a quiescent state changes
nothing. -/
theorem foldl_quiescent (s : ModState) (h : quiescent s) :
    ∀ evs : List (Nat × DemoEvent), evs.foldl step s = s := by
  intro evs
  induction evs with
  | nil => rfl
  | cons e evs ih => rw [List.foldl_cons, step_quiescent s h e, ih]

/-- The completed session state has no live timers. -/
theorem sessionFinalState_quiescent : quiescent sessionFinalState := ⟨rfl, rfl⟩

/-- With a non-blank job description, starting a session and recording
yields `sessionStartState`. -/
theorem start_eval (jd r : String) (h : ¬ jsTrim jd = "") :
    startRecording (handleStartSession initialModState jd r).1 =
      sessionStartState := by
  unfold handleStartSession
  rw [if_neg h]
  rfl

/-- With a non-blank job description, `handleStartSession` opens exactly
one WebSocket, at the demo session URL. -/
theorem hss_snd (jd r : String) (h : ¬ jsTrim jd = "") :
    (handleStartSession initialModState jd r).2 =
      [wsUrlFor ("session_demo_" ++ r)] := by
  unfold handleStartSession
  rw [if_neg h]

/-- A full session run ends in `sessionFinalState`, whatever further
timer events arrive after the scripted queue. -/
theorem runSession_eval (jd r : String) (extra : List (Nat × DemoEvent))
    (h : ¬ jsTrim jd = "") :
    runSession jd r extra =
      (sessionFinalState, [wsUrlFor ("session_demo_" ++ r)]) := by
  simp only [runSession]
  rw [List.foldl_append, start_eval jd r h, fold_eval, hss_snd jd r h,
      foldl_quiescent sessionFinalState sessionFinalState_quiescent]

/-- The accumulated transcript after `k` chunks is the marker followed
by the joined chunks, each terminated by `"\n\n"`. -/
theorem simPrefix_eq (k : Nat) :
    simPrefix k = "Simulation started... \n\n" ++
      String.join ((SIMULATED_TRANSCRIPT.take k).map (fun c => c ++ "\n\n")) := by
  induction k with
  | zero => simp [simPrefix, String.join]
  | succ k ih =>
    rw [simPrefix, List.take_succ]
    rw [List.get?_eq_getElem?] at *
    cases hk : SIMULATED_TRANSCRIPT[k]? with
    | none =>
      simp only [hk]
      rw [ih]
      simp [hk]
    | some c =>
      simp only [hk]
      rw [ih]
      simp [hk, str_join_append, str_join_singleton, String.append_assoc]

/-- C1: the Live Interview Moderator is a scripted, hardcoded
timer-driven demo.  For every recording session started by
`startRecording` (any job description passing the non-blank guard, any
session-id suffix, any further timer events after the scripted queue),
the nudges shown are exactly the nine fixed `HARDCODED_NUDGES` messages,
scheduled at the fixed offsets 5000–37000 ms; the transcript is exactly
the fixed marker followed by the `SIMULATED_TRANSCRIPT` chunks, one
appended per 4000 ms tick, then the end marker — independent of the job
description entered.  (The demo registers no speech-recognition or
bias-detection callback at all: no microphone input enters the model.) -/
theorem claim1_demo_scripted (jd randSuffix : String) (h : ¬ jsTrim jd = "")
    (extra : List (Nat × DemoEvent)) :
    (runSession jd randSuffix extra).1.nudges =
        HARDCODED_NUDGES.map (fun n => n.message) ∧
      HARDCODED_NUDGES.map (fun n => n.time) =
        [5000, 6000, 13000, 17000, 21000, 25000, 29000, 33000, 37000] ∧
      (runSession jd randSuffix extra).1.transcript =
        "Simulation started... \n\n" ++
          String.join (SIMULATED_TRANSCRIPT.map (fun c => c ++ "\n\n")) ++
          "\n\n--- End of Simulation ---" ∧
      SIMULATION_INTERVAL = 4000 := by
  rw [runSession_eval jd randSuffix extra h]
  refine ⟨rfl, rfl, ?_, rfl⟩
  show simPrefix SIMULATED_TRANSCRIPT.length ++ "\n\n--- End of Simulation ---" = _
  rw [simPrefix_eq, List.take_length]

/-- Witness for C1 at a concrete job description and session suffix. -/
theorem claim1_demo_scripted_witness :
    (¬ jsTrim "Senior Software Engineer" = "") ∧
      (runSession "Senior Software Engineer" "abc123def" []).1.nudges =
        HARDCODED_NUDGES.map (fun n => n.message) :=
  ⟨by decide, (claim1_demo_scripted "Senior Software Engineer" "abc123def"
    (by decide) []).1⟩

/-- C2: on every simulation tick that consumes a chunk with the socket
open, the string sent is the full accumulated transcript (marker plus
every chunk consumed so far, each followed by `"\n\n"`), not just the
new chunk: over a whole session the send trace is exactly the list of
growing transcript prefixes. -/
theorem claim2_full_transcript_sent (jd randSuffix : String)
    (h : ¬ jsTrim jd = "") (extra : List (Nat × DemoEvent)) :
    (runSession jd randSuffix extra).1.sent =
      (List.range SIMULATED_TRANSCRIPT.length).map (fun k =>
        "Simulation started... \n\n" ++
          String.join ((SIMULATED_TRANSCRIPT.take (k + 1)).map
            (fun c => c ++ "\n\n"))) := by
  rw [runSession_eval jd randSuffix extra h]
  show (List.range SIMULATED_TRANSCRIPT.length).map
    (fun k => simPrefix (k + 1)) = _
  simp only [simPrefix_eq]

/-- Witness for C2 at a concrete job description and session suffix. -/
theorem claim2_full_transcript_sent_witness :
    (¬ jsTrim "Backend Engineer" = "") ∧
      (runSession "Backend Engineer" "xyz987" []).1.sent =
        (List.range SIMULATED_TRANSCRIPT.length).map (fun k =>
          "Simulation started... \n\n" ++
            String.join ((SIMULATED_TRANSCRIPT.take (k + 1)).map
              (fun c => c ++ "\n\n"))) :=
  ⟨by decide, claim2_full_transcript_sent "Backend Engineer" "xyz987"
    (by decide) []⟩

/-- C3: a selection containing any non-`.pdf` file is rejected
client-side: `handleResumeSelection` only sets the error
`"Only PDF files are supported."` (so `resumeFiles` is unchanged and no
request is issued — the handler performs no `fetch` at all), and
`parseResumeFile` on such a file name throws the same error before
issuing any request. -/
theorem claim3_nonpdf_rejected (s : ScreenState) (newFiles : List String)
    (h : newFiles.any (fun f => !(endsWithPdf f)) = true) :
    handleResumeSelection s newFiles =
        { s with error := "Only PDF files are supported." } ∧
      ∀ (f : String) (resp : ParseResp), endsWithPdf f = false →
        parseResumeFile f resp =
          ([], .error ⟨"Error", "Only PDF files are supported."⟩) := by
  constructor
  · unfold handleResumeSelection
    rw [if_pos h]
  · intro f resp hf
    unfold parseResumeFile
    rw [hf]
    rfl

/-- Witness for C3 at a concrete selection containing `resume.docx`. -/
theorem claim3_nonpdf_rejected_witness :
    ((["resume.docx"] : List String).any (fun f => !(endsWithPdf f)) = true) ∧
      handleResumeSelection ⟨[], fun _ => none, [], ""⟩ ["resume.docx"] =
        { resumeFiles := ([] : List String), parsedResumes := fun _ => none,
          screeningResults := [],
          error := "Only PDF files are supported." } :=
  ⟨by decide, (claim3_nonpdf_rejected ⟨[], fun _ => none, [], ""⟩
    ["resume.docx"] (by decide)).1⟩

/-- C4 counterexample: selecting `["a.pdf", "b.pdf"]` while `a.pdf` is
already present leaves the error banner empty — the duplicate-names
error is immediately overwritten by `setError("")` because a unique new
file is also present — even though a duplicate was in the selection (the
unique `b.pdf` is appended and the duplicate is not). -/
theorem claim4_counterexample :
    (handleResumeSelection ⟨["a.pdf"], fun _ => none, [], ""⟩
        ["a.pdf", "b.pdf"]).error = "" ∧
      (handleResumeSelection ⟨["a.pdf"], fun _ => none, [], ""⟩
        ["a.pdf", "b.pdf"]).resumeFiles = ["a.pdf", "b.pdf"] := by
  constructor <;> rfl

/-- C4 (amended): for every all-PDF selection with pairwise-distinct
names, files whose names already occur in `resumeFiles` are never
appended and exactly the name-unique new files are added, so pairwise
distinctness of `resumeFiles` is preserved; the duplicate-names error
remains set only when every selected file is a duplicate, and is the
empty string otherwise. -/
theorem claim4_duplicates_not_added (s : ScreenState) (newFiles : List String)
    (hpdf : newFiles.any (fun f => !(endsWithPdf f)) = false)
    (hnodup : newFiles.Nodup) :
    (handleResumeSelection s newFiles).resumeFiles =
        s.resumeFiles ++ newFiles.filter
          (fun nf => !(s.resumeFiles.any (fun ef => ef == nf))) ∧
      (s.resumeFiles.Nodup →
        (handleResumeSelection s newFiles).resumeFiles.Nodup) ∧
      (handleResumeSelection s newFiles).error =
        (if (newFiles.filter (fun nf => s.resumeFiles.any (fun ef => ef == nf))).length > 0 ∧
            (newFiles.filter (fun nf => !(s.resumeFiles.any (fun ef => ef == nf)))).length = 0 then
          dupMessage (newFiles.filter (fun nf => s.resumeFiles.any (fun ef => ef == nf)))
        else "") := by
  have hfiles : (handleResumeSelection s newFiles).resumeFiles =
      s.resumeFiles ++ newFiles.filter
        (fun nf => !(s.resumeFiles.any (fun ef => ef == nf))) := by
    unfold handleResumeSelection
    rw [if_neg (by simp [hpdf])]
    by_cases hd : (newFiles.filter (fun nf => s.resumeFiles.any (fun ef => ef == nf))).length > 0
    · rw [if_pos hd]
      by_cases hu : (newFiles.filter (fun nf => !(s.resumeFiles.any (fun ef => ef == nf)))).length = 0
      · rw [if_pos hu]
        rw [List.length_eq_zero] at hu
        simp [hu]
      · rw [if_neg hu]
    · rw [if_neg hd]
      simp only [gt_iff_lt, not_lt, Nat.le_zero, List.length_eq_zero,
        List.filter_eq_nil_iff] at hd
      have : newFiles.filter (fun nf => !(s.resumeFiles.any (fun ef => ef == nf))) = newFiles := by
        apply List.filter_eq_self.mpr
        intro a ha
        have h2 : a ∉ s.resumeFiles := by simpa using hd a ha
        simp only [Bool.not_eq_true', List.any_eq_false, beq_iff_eq]
        intro x hx hxa
        exact h2 (hxa ▸ hx)
      rw [this]
  refine ⟨hfiles, ?_, ?_⟩
  · intro hold
    rw [hfiles]
    apply List.Nodup.append hold (hnodup.filter _)
    intro a ha hb
    have := List.of_mem_filter hb
    simp only [Bool.not_eq_true', List.any_eq_false, beq_iff_eq] at this
    exact this a ha rfl
  · unfold handleResumeSelection
    rw [if_neg (by simp [hpdf])]
    by_cases hd : (newFiles.filter (fun nf => s.resumeFiles.any (fun ef => ef == nf))).length > 0
    · rw [if_pos hd]
      by_cases hu : (newFiles.filter (fun nf => !(s.resumeFiles.any (fun ef => ef == nf)))).length = 0
      · rw [if_pos hu, if_pos ⟨hd, hu⟩]
      · rw [if_neg hu, if_neg (by rintro ⟨-, h2⟩; exact hu h2)]
    · rw [if_neg hd, if_neg (by rintro ⟨h1, -⟩; exact hd h1)]

/-- Witness for the amended C4 at a concrete mixed selection. -/
theorem claim4_duplicates_not_added_witness :
    ((["a.pdf", "b.pdf"] : List String).any (fun f => !(endsWithPdf f)) = false) ∧
      (handleResumeSelection ⟨["a.pdf"], fun _ => none, [], ""⟩
        ["a.pdf", "b.pdf"]).resumeFiles =
        ["a.pdf"] ++ (["a.pdf", "b.pdf"] : List String).filter
          (fun nf => !((["a.pdf"] : List String).any (fun ef => ef == nf))) :=
  ⟨by decide, (claim4_duplicates_not_added ⟨["a.pdf"], fun _ => none, [], ""⟩
    ["a.pdf", "b.pdf"] (by decide) (by decide)).1⟩

/-- C5: with an empty interviewee address, `handleSendEmail` only sets
the error `"Please enter the interviewee's email address."`: no request
is issued, and `emailSending`, `emailContent` and the modal-open flag
are unchanged. -/
theorem claim5_email_requires_address (s : EmailState) (resp : SendEmailResp)
    (h : s.intervieweeEmail = "") :
    handleSendEmail s resp =
        ({ s with error := "Please enter the interviewee's email address." },
         []) ∧
      (handleSendEmail s resp).1.emailSending = s.emailSending ∧
      (handleSendEmail s resp).1.emailContent = s.emailContent ∧
      (handleSendEmail s resp).1.isEmailModalOpen = s.isEmailModalOpen ∧
      (handleSendEmail s resp).2 = [] := by
  have heq : handleSendEmail s resp =
      ({ s with error := "Please enter the interviewee's email address." },
       []) := by
    unfold handleSendEmail
    rw [if_pos h]
  exact ⟨heq, by rw [heq], by rw [heq], by rw [heq], by rw [heq]⟩

/-- Witness for C5 at a concrete state with an empty address. -/
theorem claim5_email_requires_address_witness :
    (EmailState.intervieweeEmail ⟨"", "See you Monday", false, true, "", ""⟩ = "") ∧
      (handleSendEmail ⟨"", "See you Monday", false, true, "", ""⟩
        SendEmailResp.ok).2 = [] :=
  ⟨rfl, (claim5_email_requires_address
    ⟨"", "See you Monday", false, true, "", ""⟩ SendEmailResp.ok rfl).2.2.2.2⟩

/-- C9: `handleRemoveResume` removes exactly the files with the given
name from `resumeFiles` (every other name keeps its multiplicity),
deletes exactly that key from `parsedResumes` (every other key is
unchanged), resets `screeningResults` to the empty list, and leaves the
error banner alone. -/
theorem claim9_remove_frame (s : ScreenState) (fileName g : String) :
    (handleRemoveResume s fileName).resumeFiles =
        s.resumeFiles.filter (fun f => !(f == fileName)) ∧
      ¬ fileName ∈ (handleRemoveResume s fileName).resumeFiles ∧
      (handleRemoveResume s fileName).parsedResumes fileName = none ∧
      (g ≠ fileName →
        (handleRemoveResume s fileName).parsedResumes g = s.parsedResumes g) ∧
      (g ≠ fileName →
        (handleRemoveResume s fileName).resumeFiles.count g =
          s.resumeFiles.count g) ∧
      (handleRemoveResume s fileName).screeningResults = [] ∧
      (handleRemoveResume s fileName).error = s.error := by
  refine ⟨rfl, ?_, by simp [handleRemoveResume], ?_, ?_, rfl, rfl⟩
  · simp [handleRemoveResume]
  · intro hg
    simp [handleRemoveResume, hg]
  · intro hg
    simp only [handleRemoveResume]
    rw [List.count_filter]
    simp [hg]

/-- Witness for C9 at a concrete two-file state. -/
theorem claim9_remove_frame_witness :
    (("b.pdf" : String) ≠ "a.pdf") ∧
      (handleRemoveResume
        ⟨["a.pdf", "b.pdf"],
         fun k => if k = "a.pdf" then some ⟨"text a", some "A"⟩ else none,
         [], "old error"⟩ "a.pdf").resumeFiles.count "b.pdf" =
        (["a.pdf", "b.pdf"] : List String).count "b.pdf" :=
  ⟨by decide, (claim9_remove_frame
    ⟨["a.pdf", "b.pdf"],
     fun k => if k = "a.pdf" then some ⟨"text a", some "A"⟩ else none,
     [], "old error"⟩ "a.pdf" "b.pdf").2.2.2.2.1 (by decide)⟩

/-- C6 counterexample: a failed `/api/generate-job-description` request
whose body carries `error: "boom"` is displayed as
`"Failed to generate job description: boom"` — prefixed, not the
verbatim `"boom"` the claim requires. -/
theorem claim6_counterexample :
    ((handleGenerateDescription ⟨"make a jd", "", false, ""⟩
        (.okError "boom")).1).error =
        "Failed to generate job description: boom" ∧
      ¬ ((handleGenerateDescription ⟨"make a jd", "", false, ""⟩
        (.okError "boom")).1).error = "boom" := by
  constructor
  · rfl
  · decide

/-- C6 (amended): every handler issues at most one request per
invocation (no retry or recovery beyond the error banner); the main
page surfaces the server's error message with a fixed operation prefix
(`"<operation>: <message>"` via `buildErrorMessage`), not verbatim,
while the interview-copilot upload handler shows the `detail` field
verbatim (with a fixed fallback when it is absent or empty). -/
theorem claim6_error_surfacing :
    (∀ (pre msg : String), containsCI msg "failed to fetch" = false →
      buildErrorMessage (some ⟨"Error", msg⟩) pre = pre ++ ": " ++ msg) ∧
      (∀ (s : JobState) (m : String), ¬ s.jobPrompt = "" →
        containsCI m "failed to fetch" = false →
        ((handleGenerateDescription s (.okError m)).1).error =
          "Failed to generate job description: " ++ m) ∧
      (∀ (s : JobState) (resp : JobDescResp),
        (handleGenerateDescription s resp).2.length ≤ 1) ∧
      (∀ (s : BriefState) (f d : String), ¬ d = "" →
        (handleFileUpload s (some f) (.notOk (some d))).1.error = d) ∧
      (∀ (s : BriefState) (f : Option String) (resp : UploadResp),
        (handleFileUpload s f resp).2.length ≤ 1) ∧
      (∀ (s : EmailState) (resp : SendEmailResp),
        (handleSendEmail s resp).2.length ≤ 1) := by
  refine ⟨?_, ?_, ?_, ?_, ?_, ?_⟩
  · intro pre msg h
    simp [buildErrorMessage, h]
  · intro s m hs h
    unfold handleGenerateDescription
    rw [if_neg hs]
    show buildErrorMessage (some ⟨"Error", m⟩) "Failed to generate job description" = _
    simp [buildErrorMessage, h]
  · intro s resp
    unfold handleGenerateDescription
    split
    · simp
    · cases resp <;> simp
  · intro s f d hd
    unfold handleFileUpload
    simp [detailOr, hd]
  · intro s f resp
    unfold handleFileUpload
    cases f
    · simp
    · cases resp <;> simp
  · intro s resp
    unfold handleSendEmail
    split
    · simp
    · cases resp <;> simp

/-- Witness for the amended C6 at a concrete message. -/
theorem claim6_error_surfacing_witness :
    containsCI "quota exceeded" "failed to fetch" = false ∧
      buildErrorMessage (some ⟨"Error", "quota exceeded"⟩)
        "Failed to generate job description" =
        "Failed to generate job description" ++ ": " ++ "quota exceeded" :=
  ⟨by decide, claim6_error_surfacing.1 "Failed to generate job description"
    "quota exceeded" (by decide)⟩

/-- C7: with a non-blank job description, `handleStartSession` opens
exactly one WebSocket, whose URL is the fixed host followed by the path
`/ws/interview/` and the generated session id
`"session_demo_" ++ randSuffix`.  (The single `ws.current` ref is the
only socket in the component: every `send` in the simulation tick and
every received nudge event goes through it.) -/
theorem claim7_websocket_url (jd randSuffix : String)
    (h : ¬ jsTrim jd = "") :
    (handleStartSession initialModState jd randSuffix).2 =
        [wsUrlFor ("session_demo_" ++ randSuffix)] ∧
      wsUrlFor ("session_demo_" ++ randSuffix) =
        "ws://127.0.0.1:8000/ws/interview/" ++
          ("session_demo_" ++ randSuffix) ∧
      (handleStartSession initialModState jd randSuffix).2.length = 1 := by
  refine ⟨hss_snd jd randSuffix h, rfl, ?_⟩
  rw [hss_snd jd randSuffix h]
  rfl

/-- Witness for C7 at a concrete job description and session suffix. -/
theorem claim7_websocket_url_witness :
    (¬ jsTrim "Data Engineer" = "") ∧
      (handleStartSession initialModState "Data Engineer" "k3j2h1g0f").2 =
        [wsUrlFor ("session_demo_" ++ "k3j2h1g0f")] :=
  ⟨by decide, (claim7_websocket_url "Data Engineer" "k3j2h1g0f" (by decide)).1⟩

/-- C8 counterexample: the message `"{}"` parses to an object with no
`event_type`, which is not `"automatic_scribe"`, yet `handleNudge`
appends nothing (the `TypeError` from `undefined.replace` is swallowed
by the `catch`), contradicting the claim that every parsed
non-scribe event appends exactly one nudge. -/
theorem claim8_counterexample :
    getField (JsValue.obj []) "event_type" ≠ JsValue.str "automatic_scribe" ∧
      handleNudge [] (some (JsValue.obj [])) = [] := by
  constructor
  · simp [getField]
  · rfl

/-- C8 (amended): `handleNudge` leaves the nudges unchanged when the
message is not valid JSON, when its `event_type` is
`"automatic_scribe"`, or when `event_type` is missing or not a string
(the resulting `TypeError` is caught); for every parsed event whose
`event_type` is any other string it appends exactly one nudge, namely
the event type with underscores replaced by spaces and upper-cased,
`": "`, and the string coercion of the event's `message` field. -/
theorem claim8_nudge_filtering :
    (∀ nudges : List String, handleNudge nudges none = nudges) ∧
      (∀ (nudges : List String) (data : JsValue),
        getField data "event_type" = .str "automatic_scribe" →
        handleNudge nudges (some data) = nudges) ∧
      (∀ (nudges : List String) (data : JsValue),
        (∀ t : String, getField data "event_type" ≠ .str t) →
        handleNudge nudges (some data) = nudges) ∧
      (∀ (nudges : List String) (data : JsValue) (t : String),
        getField data "event_type" = .str t → ¬ t = "automatic_scribe" →
        handleNudge nudges (some data) =
          nudges ++ [upperStr (replaceUnderscores t) ++ ": " ++
            jsToString (getField data "message")]) := by
  refine ⟨fun nudges => rfl, ?_, ?_, ?_⟩
  · intro nudges data h
    simp [handleNudge, h]
  · intro nudges data h
    cases hh : getField data "event_type" with
    | str t => exact absurd hh (h t)
    | num n => simp [handleNudge, hh]
    | bool b => simp [handleNudge, hh]
    | null => simp [handleNudge, hh]
    | undefined => simp [handleNudge, hh]
    | obj fields => simp [handleNudge, hh]
    | arr elems => simp [handleNudge, hh]
  · intro nudges data t h ht
    simp [handleNudge, h, ht]

/-- Witness for the amended C8 at a concrete `talk_ratio` event. -/
theorem claim8_nudge_filtering_witness :
    getField (JsValue.obj [("event_type", JsValue.str "talk_ratio"),
        ("message", JsValue.str "Too much talking")]) "event_type" =
        JsValue.str "talk_ratio" ∧
      handleNudge [] (some (JsValue.obj
        [("event_type", JsValue.str "talk_ratio"),
         ("message", JsValue.str "Too much talking")])) =
        ["TALK RATIO: Too much talking"] := by
  refine ⟨rfl, ?_⟩
  rw [claim8_nudge_filtering.2.2.2 []
    (JsValue.obj [("event_type", JsValue.str "talk_ratio"),
      ("message", JsValue.str "Too much talking")]) "talk_ratio" rfl
    (by decide)]
  simp [upperStr, replaceUnderscores, jsToString, getField, List.lookup]

/-- C10: after `stopRecording` the simulation interval and every
scheduled nudge timeout are cleared, so no timer event whatsoever can
change the state again until a new `startRecording`; `stopRecording` is
idempotent; and the unmount cleanup likewise leaves a quiescent state
and closes the WebSocket. -/
theorem claim10_stop_cancels_timers (s : ModState)
    (evs : List (Nat × DemoEvent)) :
    evs.foldl step (stopRecording s) = stopRecording s ∧
      stopRecording (stopRecording s) = stopRecording s ∧
      evs.foldl step (unmountCleanup s) = unmountCleanup s ∧
      (unmountCleanup s).wsOpen = false ∧
      (stopRecording s).pendingNudges = [] ∧
      (stopRecording s).intervalActive = false :=
  ⟨foldl_quiescent _ ⟨rfl, rfl⟩ evs, rfl,
   foldl_quiescent _ ⟨rfl, rfl⟩ evs, rfl, rfl, rfl⟩

end AegisHire
